import Mathlib

/-!
Verification of the helper layer of the Knightian innovation model
(`knightian_model/helper_functions.py`) and of the construction/engine
interfaces described by its specification.

Arrays are embedded as functions out of `Fin`-types (one `Fin` per axis, so
the shape of every tensor is carried by its type), and floating-point values
are embedded as exact rationals.  Each Python helper is translated statement
by statement; broadcast assignments become pointwise definitions over the
index space.
-/

namespace KnightianModel

/-- Broadcast base of the utility grid, mirroring
`uc[:,:,:,:] = w_vals[None,None,:,None] - k_tilde_vals[None,None,None,:]`
in `create_uc_grid` (helper_functions.py lines 99-100): every `(ι, ζ)` slice
holds wealth minus net investment. -/
def uc_raw {nw nζ nι nk : ℕ} (w_vals : Fin nw → ℚ) (k_tilde_vals : Fin nk → ℚ) :
    Fin nι → Fin nζ → Fin nw → Fin nk → ℚ :=
  fun _ _ w k => w_vals w - k_tilde_vals k

/-- In-place update `uc[0,:,:,:] += ζ_vals[:,None,None] * wage`
(helper_functions.py line 102): labor income `ζ_vals[z] * wage` is added on
the `ι = 0` slice only. -/
def uc_with_labor {nw nζ nι nk : ℕ} (w_vals : Fin nw → ℚ) (ζ_vals : Fin nζ → ℚ)
    (k_tilde_vals : Fin nk → ℚ) (wage : ℚ) :
    Fin nι → Fin nζ → Fin nw → Fin nk → ℚ :=
  fun i z w k =>
    uc_raw w_vals k_tilde_vals i z w k + (if (i : ℕ) = 0 then ζ_vals z * wage else 0)

/-- Final step `uc = u(np.maximum(uc, min_c))` (helper_functions.py line 104):
clip consumption at the floor `min_c` and evaluate the utility function.
`ι_vals` enters only through its size, exactly as in the source, where it only
determines the first axis of the allocated array. -/
def create_uc_grid {nw nζ nι nk : ℕ} (u : ℚ → ℚ) (w_vals : Fin nw → ℚ)
    (ζ_vals : Fin nζ → ℚ) (ι_vals : Fin nι → ℚ) (k_tilde_vals : Fin nk → ℚ)
    (wage : ℚ) (min_c : ℚ) :
    Fin nι → Fin nζ → Fin nw → Fin nk → ℚ :=
  fun i z w k => u (max (uc_with_labor w_vals ζ_vals k_tilde_vals wage i z w k) min_c)

/-- Law of motion for wealth (helper_functions.py lines 146-150):
`next_w = (1+r)·δ·k_tilde + (R - (1+r)·δ)·b` broadcast over the three axes,
and `next_w_star = next_w + Γ_star`. -/
def create_next_w {nδ nk nb : ℕ} (r : ℚ) (δ_vals : Fin nδ → ℚ)
    (k_tilde_vals : Fin nk → ℚ) (b_vals : Fin nb → ℚ) (R : ℚ) (Γ_star : ℚ) :
    (Fin nδ → Fin nk → Fin nb → ℚ) × (Fin nδ → Fin nk → Fin nb → ℚ) :=
  let next_w : Fin nδ → Fin nk → Fin nb → ℚ := fun d k b =>
    (1 + r) * δ_vals d * k_tilde_vals k + (R - (1 + r) * δ_vals d) * b_vals b
  (next_w, fun d k b => next_w d k b + Γ_star)

/-- Joint transition tensor (helper_functions.py lines 178-180):
`P = P_δ[:,None,None,None] * P_ζ[None,:,:,None] * P_ι[None,None,None,:]`.
The broadcast makes the result four-dimensional, with the two middle axes
ranging over the rows and columns of `P_ζ`. -/
def create_P {nδ nζ nι : ℕ} (P_δ : Fin nδ → ℚ) (P_ζ : Fin nζ → Fin nζ → ℚ)
    (P_ι : Fin nι → ℚ) :
    Fin nδ → Fin nζ → Fin nζ → Fin nι → ℚ :=
  fun d zf zt i => P_δ d * P_ζ zf zt * P_ι i

/-- Allocation of the value-function and action-value arrays
(helper_functions.py lines 50-64), in the returned order
`(V1_star, V1_store, V2_star, V2_store, b_av, k_tilde_av)`; all six are
zero-filled (`np.zeros` / `np.zeros_like`). -/
def initialize_values_and_policies {nw nζ nι nk nb : ℕ}
    (w_vals : Fin nw → ℚ) (ζ_vals : Fin nζ → ℚ) (ι_vals : Fin nι → ℚ)
    (k_tilde_vals : Fin nk → ℚ) (b_vals : Fin nb → ℚ) :
    (Fin nι → Fin nζ → Fin nw → ℚ) × (Fin nι → Fin nζ → Fin nw → ℚ) ×
    (Fin nζ → Fin nk → Fin nι → ℚ) × (Fin nζ → Fin nk → Fin nι → ℚ) ×
    (Fin nζ → Fin nk → Fin nb → Fin nι → ℚ) ×
    (Fin nι → Fin nζ → Fin nw → Fin nk → ℚ) :=
  (fun _ _ _ => 0, fun _ _ _ => 0, fun _ _ _ => 0, fun _ _ _ => 0,
   fun _ _ _ _ => 0, fun _ _ _ _ => 0)

/-- Concrete one-point distribution over a single δ value, used to evaluate
`create_P` on explicit inputs. -/
def Pδ_unit : Fin 1 → ℚ := ![1]

/-- Concrete row-stochastic 2×2 transition matrix over ζ (each row sums to 1),
used to evaluate `create_P` on explicit inputs. -/
def Pζ_half : Fin 2 → Fin 2 → ℚ := ![![1/2, 1/2], ![1/2, 1/2]]

/-- Concrete one-point distribution over a single ι value, used to evaluate
`create_P` on explicit inputs. -/
def Pι_unit : Fin 1 → ℚ := ![1]

/-- Error taxonomy of the construction layer: the invalid-parameter error
(a domain-constraint violation) and the shape-mismatch error (a distribution
whose shape does not match its grid).  Both correspond to the `ValueError`
raised by `KIMHouseholds` in the tests. -/
inductive ConstructionError
  | invalidParameter
  | shapeMismatch
deriving DecidableEq

/-- Modelled from the spec: a successfully constructed `KIMHouseholds` object
(the class itself is not under src/, only its tests are).  It carries the
grids, the distributions and the bounded scalar parameters. -/
structure KIMHouseholds where
  δ_vals : List ℚ
  P_δ : List ℚ
  ζ_vals : List ℚ
  P_ζ : List (List ℚ)
  α : ℚ
  β : ℚ
  π : ℚ

/-- Modelled from the spec: the `KIMHouseholds` construction layer, which is
not under src/ (only its tests are).  Per the spec it must reject, at
construction time, any probability distribution that is negative, does not
sum to 1, or has mismatched shape against its corresponding grid, and must
reject `α`, `β`, `π` outside `[0, 1]`; shape violations raise the
shape-mismatch error, domain violations the invalid-parameter error, and on
failure no partial object is returned. -/
def mkKIMHouseholds (δ_vals P_δ ζ_vals : List ℚ) (P_ζ : List (List ℚ))
    (α β π : ℚ) : Except ConstructionError KIMHouseholds :=
  if P_δ.length ≠ δ_vals.length then .error .shapeMismatch
  else if ¬ (P_ζ.length = ζ_vals.length ∧ ∀ row ∈ P_ζ, row.length = ζ_vals.length) then
    .error .shapeMismatch
  else if (∃ p ∈ P_δ, p < 0) ∨ (∃ p ∈ P_δ, 1 < p) ∨ P_δ.sum ≠ 1 then
    .error .invalidParameter
  else if ∃ row ∈ P_ζ, (∃ p ∈ row, p < 0) ∨ (∃ p ∈ row, 1 < p) ∨ row.sum ≠ 1 then
    .error .invalidParameter
  else if α < 0 ∨ 1 < α ∨ β < 0 ∨ 1 < β ∨ π < 0 ∨ 1 < π then
    .error .invalidParameter
  else .ok ⟨δ_vals, P_δ, ζ_vals, P_ζ, α, β, π⟩

/-- Plain probability-weighted expectation over the invention-success branch
value `vS` and the no-invention branch value `vF`, with success probability
`p`: the reference aggregation of the Bellman/VFI engine. -/
def plain_expectation (p vS vF : ℚ) : ℚ := p * vS + (1 - p) * vF

/-- Modelled from the spec: the engine's ambiguity-averse aggregation of the
invention-success and no-invention branches (the engine is not under src/).
The spec describes it as a pessimistic, minimizing combination over an
admissible belief set for the invention-success probability, parameterized by
the half-width `α` around the objective probability `π`; the belief set is
the interval `[π - α, π + α]` clamped to `[0, 1]`, and since the expectation
is affine in the belief, its minimum over the interval is the minimum over
the two endpoints. -/
def ambiguity_aggregate (α π vS vF : ℚ) : ℚ :=
  min (plain_expectation (max 0 (π - α)) vS vF)
      (plain_expectation (min 1 (π + α)) vS vF)

/-- Modelled from the spec: the VFI engine's outer loop, abstracted over how
one Bellman update uses the branch aggregator (the engine is not under src/).
The spec's per-iteration algorithm (interpolation, grid search, expectation
over the joint shock tensor) depends on the two invention branches only
through the aggregator combining them, so one iteration is `step agg` and the
solver iterates it from the initial guess `v0`. -/
def vfi_solve {V : Type} (step : (ℚ → ℚ → ℚ) → V → V) (agg : ℚ → ℚ → ℚ)
    (n : ℕ) (v0 : V) : V :=
  (step agg)^[n] v0

/-- The sum of one `ζ_from` slice of `create_P` factors into the product of
the three marginal sums. -/
theorem create_P_slice_sum {nδ nζ nι : ℕ} (P_δ : Fin nδ → ℚ)
    (P_ζ : Fin nζ → Fin nζ → ℚ) (P_ι : Fin nι → ℚ) (zf : Fin nζ) :
    (∑ d, ∑ zt, ∑ i, create_P P_δ P_ζ P_ι d zf zt i)
      = (∑ d, P_δ d) * ((∑ zt, P_ζ zf zt) * (∑ i, P_ι i)) := by
  symm
  rw [Finset.sum_mul]
  refine Finset.sum_congr rfl fun d _ => ?_
  rw [Finset.sum_mul, Finset.mul_sum]
  refine Finset.sum_congr rfl fun zt _ => ?_
  rw [← mul_assoc, Finset.mul_sum]
  rfl

/-- C1: `create_uc_grid` returns the tensor of shape `(|ι|,|ζ|,|w|,|k_tilde|)`
whose `(i,z,w,k)` entry is `u` applied to the elementwise maximum of `min_c`
and raw consumption, where raw consumption is `w_vals[w] - k_tilde_vals[k]`
plus the labor-income term `ζ_vals[z]·wage` exactly when the invention index
`i` is `0`. -/
theorem create_uc_grid_correct {nw nζ nι nk : ℕ} (u : ℚ → ℚ) (w_vals : Fin nw → ℚ)
    (ζ_vals : Fin nζ → ℚ) (ι_vals : Fin nι → ℚ) (k_tilde_vals : Fin nk → ℚ)
    (wage min_c : ℚ) (i : Fin nι) (z : Fin nζ) (w : Fin nw) (k : Fin nk) :
    create_uc_grid u w_vals ζ_vals ι_vals k_tilde_vals wage min_c i z w k
      = u (max min_c
          (w_vals w - k_tilde_vals k + (if (i : ℕ) = 0 then ζ_vals z * wage else 0))) := by
  simp [create_uc_grid, uc_with_labor, uc_raw, max_comm]

/-- C2: `create_next_w` returns a pair of `(|δ|,|k_tilde|,|b|)`-shaped tensors
with `next_w[δ,k,b] = (1+r)·δ_vals[δ]·k_tilde_vals[k] + (R-(1+r)·δ_vals[δ])·b_vals[b]`
and `next_w_star` equal to `next_w` with `Γ_star` added at every index. -/
theorem create_next_w_correct {nδ nk nb : ℕ} (r : ℚ) (δ_vals : Fin nδ → ℚ)
    (k_tilde_vals : Fin nk → ℚ) (b_vals : Fin nb → ℚ) (R : ℚ) (Γ_star : ℚ)
    (d : Fin nδ) (k : Fin nk) (b : Fin nb) :
    (create_next_w r δ_vals k_tilde_vals b_vals R Γ_star).1 d k b
      = (1 + r) * δ_vals d * k_tilde_vals k + (R - (1 + r) * δ_vals d) * b_vals b ∧
    (create_next_w r δ_vals k_tilde_vals b_vals R Γ_star).2 d k b
      = (create_next_w r δ_vals k_tilde_vals b_vals R Γ_star).1 d k b + Γ_star :=
  ⟨rfl, rfl⟩

/-- C3: `create_P` returns the four-dimensional tensor with
`P[δ,ζ_from,ζ_to,ι] = P_δ[δ]·P_ζ[ζ_from,ζ_to]·P_ι[ι]` at every index. -/
theorem create_P_correct {nδ nζ nι : ℕ} (P_δ : Fin nδ → ℚ)
    (P_ζ : Fin nζ → Fin nζ → ℚ) (P_ι : Fin nι → ℚ)
    (d : Fin nδ) (zf zt : Fin nζ) (i : Fin nι) :
    create_P P_δ P_ζ P_ι d zf zt i = P_δ d * P_ζ zf zt * P_ι i :=
  rfl

/-- C5: `initialize_values_and_policies` returns six all-zero arrays, with
`V1_star`/`V1_store` of shape `(|ι|,|ζ|,|w|)`, `V2_star`/`V2_store` of shape
`(|ζ|,|k_tilde|,|ι|)`, `b_av` of shape `(|ζ|,|k_tilde|,|b|,|ι|)` and
`k_tilde_av` of shape `(|ι|,|ζ|,|w|,|k_tilde|)`, for every combination of grid
sizes including sizes of 1. -/
theorem initialize_values_and_policies_zero {nw nζ nι nk nb : ℕ}
    (w_vals : Fin nw → ℚ) (ζ_vals : Fin nζ → ℚ) (ι_vals : Fin nι → ℚ)
    (k_tilde_vals : Fin nk → ℚ) (b_vals : Fin nb → ℚ) :
    (∀ i z w, (initialize_values_and_policies w_vals ζ_vals ι_vals k_tilde_vals b_vals).1
        i z w = 0) ∧
    (∀ i z w, (initialize_values_and_policies w_vals ζ_vals ι_vals k_tilde_vals b_vals).2.1
        i z w = 0) ∧
    (∀ z k i, (initialize_values_and_policies w_vals ζ_vals ι_vals k_tilde_vals b_vals).2.2.1
        z k i = 0) ∧
    (∀ z k i, (initialize_values_and_policies w_vals ζ_vals ι_vals k_tilde_vals b_vals).2.2.2.1
        z k i = 0) ∧
    (∀ z k b i,
      (initialize_values_and_policies w_vals ζ_vals ι_vals k_tilde_vals b_vals).2.2.2.2.1
        z k b i = 0) ∧
    (∀ i z w k,
      (initialize_values_and_policies w_vals ζ_vals ι_vals k_tilde_vals b_vals).2.2.2.2.2
        i z w k = 0) :=
  ⟨fun _ _ _ => rfl, fun _ _ _ => rfl, fun _ _ _ => rfl, fun _ _ _ => rfl,
   fun _ _ _ _ => rfl, fun _ _ _ _ => rfl⟩

/-- C4 counterexample: the claim that the output of `create_P` sums to 1 over
its full index space fails on valid inputs.  With the one-point distributions
`Pδ_unit`, `Pι_unit` and the row-stochastic matrix `Pζ_half` (every entry
nonnegative, every marginal summing to 1 along its relevant axis), the full
sum of `create_P` is 2, not 1. -/
theorem create_P_total_sum_counterexample :
    (0 ≤ Pδ_unit 0 ∧ Pδ_unit 0 = 1) ∧
    (0 ≤ Pι_unit 0 ∧ Pι_unit 0 = 1) ∧
    (0 ≤ Pζ_half 0 0 ∧ 0 ≤ Pζ_half 0 1 ∧ 0 ≤ Pζ_half 1 0 ∧ 0 ≤ Pζ_half 1 1) ∧
    (Pζ_half 0 0 + Pζ_half 0 1 = 1 ∧ Pζ_half 1 0 + Pζ_half 1 1 = 1) ∧
    (∑ d, ∑ zf, ∑ zt, ∑ i, create_P Pδ_unit Pζ_half Pι_unit d zf zt i) ≠ 1 := by
  refine ⟨⟨?_, ?_⟩, ⟨?_, ?_⟩, ⟨?_, ?_, ?_, ?_⟩, ⟨?_, ?_⟩, ?_⟩ <;>
    norm_num [create_P, Pδ_unit, Pζ_half, Pι_unit, Fin.sum_univ_two, Fin.sum_univ_one]

/-- C4 amended: for valid `P_δ`, `P_ι` (nonnegative, summing to 1) and a valid
row-stochastic `P_ζ` (nonnegative, each row summing to 1), the output of
`create_P` is elementwise nonnegative and the sum of all its entries over the
full index space equals the number of `ζ` states (each fixed `ζ_from` slice
summing to 1), rather than 1. -/
theorem create_P_total_sum_amended {nδ nζ nι : ℕ} (P_δ : Fin nδ → ℚ)
    (P_ζ : Fin nζ → Fin nζ → ℚ) (P_ι : Fin nι → ℚ)
    (hδ0 : ∀ d, 0 ≤ P_δ d) (hδ1 : (∑ d, P_δ d) = 1)
    (hζ0 : ∀ zf zt, 0 ≤ P_ζ zf zt) (hζ1 : ∀ zf, (∑ zt, P_ζ zf zt) = 1)
    (hι0 : ∀ i, 0 ≤ P_ι i) (hι1 : (∑ i, P_ι i) = 1) :
    (∀ d zf zt i, 0 ≤ create_P P_δ P_ζ P_ι d zf zt i) ∧
    (∑ zf, ∑ d, ∑ zt, ∑ i, create_P P_δ P_ζ P_ι d zf zt i) = (nζ : ℚ) := by
  constructor
  · intro d zf zt i
    exact mul_nonneg (mul_nonneg (hδ0 d) (hζ0 zf zt)) (hι0 i)
  · have h : ∀ zf : Fin nζ, (∑ d, ∑ zt, ∑ i, create_P P_δ P_ζ P_ι d zf zt i) = 1 := by
      intro zf
      rw [create_P_slice_sum, hδ1, hζ1 zf, hι1, one_mul, one_mul]
    rw [Finset.sum_congr rfl fun zf _ => h zf]
    simp

/-- C4 amended witness: at the explicit valid inputs `Pδ_unit`, `Pζ_half`,
`Pι_unit` (two ζ states) the full sum of `create_P` is 2. -/
theorem create_P_total_sum_amended_witness :
    (∑ zf, ∑ d, ∑ zt, ∑ i, create_P Pδ_unit Pζ_half Pι_unit d zf zt i) = ((2 : ℕ) : ℚ) :=
  (create_P_total_sum_amended Pδ_unit Pζ_half Pι_unit
    (by norm_num [Pδ_unit]) (by norm_num [Pδ_unit, Fin.sum_univ_one])
    (fun zf zt => by fin_cases zf <;> fin_cases zt <;> norm_num [Pζ_half])
    (fun zf => by fin_cases zf <;> norm_num [Pζ_half, Fin.sum_univ_two])
    (by norm_num [Pι_unit]) (by norm_num [Pι_unit, Fin.sum_univ_one])).2

/-- C10: for valid `P_δ`, `P_ι` (nonnegative, summing to 1) and a valid
row-stochastic `P_ζ` (nonnegative, each row summing to 1), each fixed
`ζ_from` slice of the output of `create_P` is itself a probability
distribution: elementwise nonnegative and summing to exactly 1 over the
remaining `δ`, `ζ_to` and `ι` indices. -/
theorem create_P_slice_distribution {nδ nζ nι : ℕ} (P_δ : Fin nδ → ℚ)
    (P_ζ : Fin nζ → Fin nζ → ℚ) (P_ι : Fin nι → ℚ)
    (hδ0 : ∀ d, 0 ≤ P_δ d) (hδ1 : (∑ d, P_δ d) = 1)
    (hζ0 : ∀ zf zt, 0 ≤ P_ζ zf zt) (hζ1 : ∀ zf, (∑ zt, P_ζ zf zt) = 1)
    (hι0 : ∀ i, 0 ≤ P_ι i) (hι1 : (∑ i, P_ι i) = 1) (zf : Fin nζ) :
    (∀ d zt i, 0 ≤ create_P P_δ P_ζ P_ι d zf zt i) ∧
    (∑ d, ∑ zt, ∑ i, create_P P_δ P_ζ P_ι d zf zt i) = 1 := by
  constructor
  · intro d zt i
    exact mul_nonneg (mul_nonneg (hδ0 d) (hζ0 zf zt)) (hι0 i)
  · rw [create_P_slice_sum, hδ1, hζ1 zf, hι1, one_mul, one_mul]

/-- C10 witness: at the explicit valid inputs `Pδ_unit`, `Pζ_half`, `Pι_unit`
the `ζ_from = 0` slice of `create_P` is nonnegative and sums to 1. -/
theorem create_P_slice_distribution_witness :
    0 ≤ create_P Pδ_unit Pζ_half Pι_unit 0 0 0 0 ∧
    (∑ d, ∑ zt, ∑ i, create_P Pδ_unit Pζ_half Pι_unit d 0 zt i) = 1 :=
  ⟨(create_P_slice_distribution Pδ_unit Pζ_half Pι_unit
      (by norm_num [Pδ_unit]) (by norm_num [Pδ_unit, Fin.sum_univ_one])
      (fun zf zt => by fin_cases zf <;> fin_cases zt <;> norm_num [Pζ_half])
      (fun zf => by fin_cases zf <;> norm_num [Pζ_half, Fin.sum_univ_two])
      (by norm_num [Pι_unit]) (by norm_num [Pι_unit, Fin.sum_univ_one]) 0).1 0 0 0,
   (create_P_slice_distribution Pδ_unit Pζ_half Pι_unit
      (by norm_num [Pδ_unit]) (by norm_num [Pδ_unit, Fin.sum_univ_one])
      (fun zf zt => by fin_cases zf <;> fin_cases zt <;> norm_num [Pζ_half])
      (fun zf => by fin_cases zf <;> norm_num [Pζ_half, Fin.sum_univ_two])
      (by norm_num [Pι_unit]) (by norm_num [Pι_unit, Fin.sum_univ_one]) 0).2⟩

/-- C6: for every utility function `u` whose values satisfy a given
well-definedness predicate (such as finiteness) at all inputs at least
`min_c`, every entry of `create_uc_grid` satisfies that predicate, even when
raw wealth minus net investment is very negative: the consumption floor
guarantees `u` is only ever evaluated at arguments at least `min_c`. -/
theorem create_uc_grid_finite {nw nζ nι nk : ℕ} (Fine : ℚ → Prop) (u : ℚ → ℚ)
    (w_vals : Fin nw → ℚ) (ζ_vals : Fin nζ → ℚ) (ι_vals : Fin nι → ℚ)
    (k_tilde_vals : Fin nk → ℚ) (wage min_c : ℚ)
    (hu : ∀ c, min_c ≤ c → Fine (u c))
    (i : Fin nι) (z : Fin nζ) (w : Fin nw) (k : Fin nk) :
    Fine (create_uc_grid u w_vals ζ_vals ι_vals k_tilde_vals wage min_c i z w k) :=
  hu _ (le_max_right _ _)

/-- C6 witness: with `u c = c + 1`, the predicate `0 ≤ ·`, floor `min_c = 0`
and a grid whose raw consumption is `-100 - 50 + 1·2 = -148`, the
corresponding `create_uc_grid` entry still satisfies the predicate. -/
theorem create_uc_grid_finite_witness :
    (∀ c : ℚ, (0 : ℚ) ≤ c → 0 ≤ c + 1) ∧
    0 ≤ create_uc_grid (fun c => c + 1) ![(-100 : ℚ)] ![1] ![0, 1] ![50] 2 0 0 0 0 0 :=
  ⟨fun c hc => by linarith,
   create_uc_grid_finite (fun x => 0 ≤ x) (fun c => c + 1)
     ![(-100 : ℚ)] ![1] ![0, 1] ![50] 2 0
     (fun c hc => by change (0 : ℚ) ≤ c + 1; linarith) 0 0 0 0⟩

/-- C7: with well-shaped inputs, `mkKIMHouseholds` returns the
invalid-parameter error (and hence no constructed object) whenever `P_δ` has
a negative entry, an entry greater than 1, or does not sum to 1, or any of
`α`, `β`, `π` lies outside `[0, 1]`. -/
theorem households_reject_invalid_parameters
    (δ_vals P_δ ζ_vals : List ℚ) (P_ζ : List (List ℚ)) (α β π : ℚ)
    (hδlen : P_δ.length = δ_vals.length)
    (hζshape : P_ζ.length = ζ_vals.length ∧ ∀ row ∈ P_ζ, row.length = ζ_vals.length)
    (hbad : (∃ p ∈ P_δ, p < 0) ∨ (∃ p ∈ P_δ, 1 < p) ∨ P_δ.sum ≠ 1 ∨
            α < 0 ∨ 1 < α ∨ β < 0 ∨ 1 < β ∨ π < 0 ∨ 1 < π) :
    mkKIMHouseholds δ_vals P_δ ζ_vals P_ζ α β π = .error .invalidParameter := by
  unfold mkKIMHouseholds
  rw [if_neg (fun h => h hδlen), if_neg (not_not_intro hζshape)]
  by_cases h3 : (∃ p ∈ P_δ, p < 0) ∨ (∃ p ∈ P_δ, 1 < p) ∨ P_δ.sum ≠ 1
  · rw [if_pos h3]
  · rw [if_neg h3]
    have h5 : α < 0 ∨ 1 < α ∨ β < 0 ∨ 1 < β ∨ π < 0 ∨ 1 < π := by
      rcases hbad with h | h | h | h
      · exact absurd (Or.inl h) h3
      · exact absurd (Or.inr (Or.inl h)) h3
      · exact absurd (Or.inr (Or.inr h)) h3
      · exact h
    by_cases h4 : ∃ row ∈ P_ζ, (∃ p ∈ row, p < 0) ∨ (∃ p ∈ row, 1 < p) ∨ row.sum ≠ 1
    · rw [if_pos h4]
    · rw [if_neg h4, if_pos h5]

/-- C7 witness: construction with the well-shaped but negative-entry
`P_δ = [-1/2, 3/2]` (the tests' `P_δ_neg` shape of failure) returns the
invalid-parameter error. -/
theorem households_reject_invalid_parameters_witness :
    mkKIMHouseholds [1, 11/10] [-1/2, 3/2] [1] [[1]] (1/2) (1/2) (1/2)
      = .error .invalidParameter :=
  households_reject_invalid_parameters [1, 11/10] [-1/2, 3/2] [1] [[1]] (1/2) (1/2) (1/2)
    rfl (by simp) (Or.inl ⟨-1/2, by simp, by norm_num⟩)

/-- C8: `mkKIMHouseholds` returns the shape-mismatch error (and hence no
constructed object) whenever the size of `P_δ` does not match the size of
`δ_vals`, or the shape of `P_ζ` does not match `|ζ_vals| × |ζ_vals|`,
regardless of what the entries sum to. -/
theorem households_reject_shape_mismatch
    (δ_vals P_δ ζ_vals : List ℚ) (P_ζ : List (List ℚ)) (α β π : ℚ)
    (hbad : P_δ.length ≠ δ_vals.length ∨
            ¬ (P_ζ.length = ζ_vals.length ∧ ∀ row ∈ P_ζ, row.length = ζ_vals.length)) :
    mkKIMHouseholds δ_vals P_δ ζ_vals P_ζ α β π = .error .shapeMismatch := by
  unfold mkKIMHouseholds
  rcases hbad with h | h
  · rw [if_pos h]
  · by_cases h1 : P_δ.length ≠ δ_vals.length
    · rw [if_pos h1]
    · rw [if_neg h1, if_pos h]

/-- C8 witness: a three-point `δ_vals` with a correctly-summing two-point
`P_δ` (the tests' `test_shapes_invalid` inputs) returns the shape-mismatch
error. -/
theorem households_reject_shape_mismatch_witness :
    mkKIMHouseholds [1, 11/10, 6/5] [1/2, 1/2] [1] [[1]] (1/2) (1/2) (1/2)
      = .error .shapeMismatch :=
  households_reject_shape_mismatch [1, 11/10, 6/5] [1/2, 1/2] [1] [[1]] (1/2) (1/2) (1/2)
    (Or.inl (by simp))

/-- Monotonicity of the plain expectation in both branch values, for a
success probability in `[0, 1]`. -/
theorem plain_expectation_mono (p vS vF vS2 vF2 : ℚ) (hp0 : 0 ≤ p) (hp1 : p ≤ 1)
    (hS : vS ≤ vS2) (hF : vF ≤ vF2) :
    plain_expectation p vS vF ≤ plain_expectation p vS2 vF2 := by
  unfold plain_expectation
  have h1 : (0 : ℚ) ≤ 1 - p := by linarith
  exact add_le_add (mul_le_mul_of_nonneg_left hS hp0) (mul_le_mul_of_nonneg_left hF h1)

/-- C9: when the ambiguity-aversion parameter `α` equals 0, the engine's
aggregation over the invention-success and no-invention branches equals the
plain probability-weighted expectation with the objective success probability
`π`, so any VFI solve built on the aggregation coincides exactly (within any
tolerance) with the reference plain-expectation solve; moreover the
aggregation is monotonic in both branch values. -/
theorem ambiguity_alpha_zero (π : ℚ) (hπ0 : 0 ≤ π) (hπ1 : π ≤ 1) :
    (∀ vS vF, ambiguity_aggregate 0 π vS vF = plain_expectation π vS vF) ∧
    (∀ (V : Type) (step : (ℚ → ℚ → ℚ) → V → V) (n : ℕ) (v0 : V),
      vfi_solve step (ambiguity_aggregate 0 π) n v0
        = vfi_solve step (plain_expectation π) n v0) ∧
    (∀ α vS vF vS2 vF2, 0 ≤ α → vS ≤ vS2 → vF ≤ vF2 →
      ambiguity_aggregate α π vS vF ≤ ambiguity_aggregate α π vS2 vF2) := by
  have hmax : max 0 (π - 0) = π := by rw [sub_zero]; exact max_eq_right hπ0
  have hmin : min 1 (π + 0) = π := by rw [add_zero]; exact min_eq_right hπ1
  have h1 : ∀ vS vF, ambiguity_aggregate 0 π vS vF = plain_expectation π vS vF := by
    intro vS vF
    rw [ambiguity_aggregate, hmax, hmin, min_self]
  refine ⟨h1, ?_, ?_⟩
  · intro V step n v0
    have h2 : ambiguity_aggregate 0 π = plain_expectation π :=
      funext fun vS => funext fun vF => h1 vS vF
    rw [vfi_solve, vfi_solve, h2]
  · intro α vS vF vS2 vF2 hα hS hF
    have hlo0 : (0 : ℚ) ≤ max 0 (π - α) := le_max_left 0 _
    have hlo1 : max 0 (π - α) ≤ 1 := max_le (by norm_num) (by linarith)
    have hhi0 : (0 : ℚ) ≤ min 1 (π + α) := le_min (by norm_num) (by linarith)
    have hhi1 : min 1 (π + α) ≤ 1 := min_le_left 1 _
    exact min_le_min (plain_expectation_mono _ _ _ _ _ hlo0 hlo1 hS hF)
      (plain_expectation_mono _ _ _ _ _ hhi0 hhi1 hS hF)

/-- C9 witness: with `π = 1/2` and branch values 3 and 1, the ambiguity
aggregation at `α = 0` equals the plain expectation. -/
theorem ambiguity_alpha_zero_witness :
    ambiguity_aggregate 0 (1/2) 3 1 = plain_expectation (1/2) 3 1 :=
  (ambiguity_alpha_zero (1/2) (by norm_num) (by norm_num)).1 3 1

end KnightianModel
